import Mathlib

/-!
Shallow embedding of the user-account backend of the video-sharing
application (controllers `src/backend/src/controllers/user.controllers.js`,
model `src/backend/src/models/user.models.js`, utility `utils/cloudinary.js`,
routes `routes/user.routes.js`).

JavaScript values that may be `undefined` are embedded as `Option`;
thrown errors are `Except`; the Mongo collection is an explicit list of
user records threaded through every operation; filesystem/CDN side
effects are recorded in an explicit effect log.
-/

/-- Structure `ApiError(statusCode, message)` from `utils/ApiError.js`: the structured
error every controller throws. -/
structure ApiError where
  statusCode : Nat
  message : String
deriving DecidableEq, Repr

/-- A controller outcome error: `api e` is a thrown `ApiError`;
`jsError` is an untyped runtime exception that is not an `ApiError`
(e.g. the TypeError raised by indexing into `undefined`, or a library
validation failure inside `create`). -/
inductive RunErr where
  | jsError : RunErr
  | api : ApiError → RunErr
deriving DecidableEq, Repr

/-- Constant `process.env.ACCESS_TOKEN_SECRET` (opaque configured value). -/
def ACCESS_TOKEN_SECRET : String := "access-token-secret"

/-- Constant `process.env.REFRESH_TOKEN_SECRET` (opaque configured value). -/
def REFRESH_TOKEN_SECRET : String := "refresh-token-secret"

/-- A signed refresh token, modelled by its signing inputs: the JWT payload
is `{ _id }` (user.models.js, `generateRefreshToken`), the key it was
signed with, and the issued-at instant `iat` that `jwt.sign` embeds. Two
tokens are the same string iff these inputs coincide. -/
structure RefreshToken where
  _id : Nat
  secret : String
  iat : Nat
deriving DecidableEq, Repr

/-- A signed access token: payload `{ _id, email, username, fullName }`
(user.models.js, `generateAccessToken`) plus key and issued-at. -/
structure AccessToken where
  _id : Nat
  email : String
  username : String
  fullName : String
  secret : String
  iat : Nat
deriving DecidableEq, Repr

/-- One persisted user document (userSchema in user.models.js). String
fields that the schema leaves optional (`avatarId`, `coverImage`,
`coverImageId`) use `""` for an absent/empty value, matching how the
controllers store `coverImage?.url || ""`; `password` holds the bcrypt
digest written by the pre-save hook; `refreshToken` is `none` when no
session is active. -/
structure UserRecord where
  _id : Nat
  username : String
  email : String
  fullName : String
  avatar : String
  avatarId : String
  coverImage : String
  coverImageId : String
  password : String
  refreshToken : Option RefreshToken
deriving DecidableEq, Repr

/-- The database plus the ambient clock: `users` is the User collection,
`nextId` the next fresh `_id`, and `now` the current time in seconds used
as `iat` by `jwt.sign`. The clock advances by one second whenever a token
pair is issued, modelling that distinct issuances happen at distinct
timestamps. -/
structure DB where
  users : List UserRecord
  nextId : Nat
  now : Nat
deriving DecidableEq, Repr

/-- Embeds `User.findById(id)`: first document whose `_id` matches. -/
def findById (db : DB) (i : Nat) : Option UserRecord :=
  db.users.find? (fun u => u._id == i)

/-- Embeds `user.save()` / `findByIdAndUpdate`: replace the first document with
the saved document's `_id` by the saved document. -/
def saveUser : List UserRecord → UserRecord → List UserRecord
  | [], _ => []
  | u :: rest, u' => if u._id == u'._id then u' :: rest else u :: saveUser rest u'

/-- JS truthiness of a string that may be `undefined`: `undefined` and
`""` are falsy, every other string truthy. -/
def jsTruthyS : Option String → Bool
  | none => false
  | some s => s != ""

/-- Model of `bcrypt.hash(plain, cost)`: a bcrypt digest always starts
with the `$2b$<cost>$` algorithm/cost header, so a digest is never the
plaintext itself; the model keeps the inputs so that `bcrypt.compare`
is the exact inverse check. -/
def bcryptHash (cost : Nat) (plain : String) : String :=
  "$2b$" ++ toString cost ++ "$" ++ plain

/-- Model of `bcrypt.compare(plain, digest)` (used by
`userSchema.methods.isPasswordCorrect`): true iff `digest` is the hash
of `plain` at the fixed cost 10 used by the pre-save hook. -/
def bcryptCompare (plain stored : String) : Bool :=
  stored == bcryptHash 10 plain

/-- Model of JS `String.prototype.trim()`: strip leading and trailing
whitespace. -/
def jsTrim (s : String) : String :=
  String.mk
    (((s.data.dropWhile Char.isWhitespace).reverse.dropWhile Char.isWhitespace).reverse)

/-- Model of JS `String.prototype.toLowerCase()`: lowercase each
character. -/
def jsToLower (s : String) : String :=
  String.mk (s.data.map Char.toLower)

/-- Splitting a character list at every occurrence of `sep`. -/
def splitOnChar (sep : Char) : List Char → List (List Char)
  | [] => [[]]
  | c :: rest =>
      let r := splitOnChar sep rest
      if c == sep then [] :: r
      else
        match r with
        | [] => [[c]]
        | g :: gs => (c :: g) :: gs

/-- Model of the external `validator.isEmail`: one `@` separating a
nonempty local part from a nonempty domain that contains a dot. The
claims never probe the validator's exact boundary, only that a
syntactically ordinary email passes. -/
def isEmail (s : String) : Bool :=
  match splitOnChar '@' s.data with
  | [lp, dp] => !lp.isEmpty && !dp.isEmpty && (splitOnChar '.' dp).length ≥ 2
  | _ => false

/-- Model of `validator.isLowercase`: the string equals its lowercasing. -/
def isLowercase (s : String) : Bool :=
  jsToLower s == s

/-- A field value inside a serialized user document. -/
inductive FieldVal where
  | str : String → FieldVal
  | rtok : RefreshToken → FieldVal
deriving DecidableEq, Repr

/-- The full user document as key/value pairs (what a query without a
projection returns); the `refreshToken` key is present only when the
field is set, as for an unset Mongo field. -/
def toDoc (u : UserRecord) : List (String × FieldVal) :=
  [("_id", FieldVal.str (toString u._id)),
   ("username", FieldVal.str u.username),
   ("email", FieldVal.str u.email),
   ("fullName", FieldVal.str u.fullName),
   ("avatar", FieldVal.str u.avatar),
   ("avatarId", FieldVal.str u.avatarId),
   ("coverImage", FieldVal.str u.coverImage),
   ("coverImageId", FieldVal.str u.coverImageId),
   ("password", FieldVal.str u.password)]
  ++ (match u.refreshToken with
      | some t => [("refreshToken", FieldVal.rtok t)]
      | none => [])

/-- Embeds `.select("-f1 -f2 ...")`: drop the excluded keys from the document. -/
def selectExcl (doc : List (String × FieldVal)) (excl : List String) :
    List (String × FieldVal) :=
  doc.filter (fun kv => !(excl.contains kv.1))

/-- Embeds `user.generateAccessToken()` signed at instant `now`. -/
def UserRecord.generateAccessToken (u : UserRecord) (now : Nat) : AccessToken :=
  ⟨u._id, u.email, u.username, u.fullName, ACCESS_TOKEN_SECRET, now⟩

/-- Embeds `user.generateRefreshToken()` signed at instant `now`. -/
def UserRecord.generateRefreshToken (u : UserRecord) (now : Nat) : RefreshToken :=
  ⟨u._id, REFRESH_TOKEN_SECRET, now⟩

/-- A property value of the object literal returned by
`generateAccessAndRefreshTokens`. -/
inductive TokenVal where
  | acc : AccessToken → TokenVal
  | ref : RefreshToken → TokenVal
deriving DecidableEq, Repr

/-- Reading a property expected to hold an access token from a JS object:
a missing key reads as `undefined` (`none`). -/
def getAccessField (obj : List (String × TokenVal)) (k : String) : Option AccessToken :=
  match obj.lookup k with
  | some (TokenVal.acc t) => some t
  | _ => none

/-- Reading a property expected to hold a refresh token from a JS object:
a missing key reads as `undefined` (`none`). -/
def getRefreshField (obj : List (String × TokenVal)) (k : String) : Option RefreshToken :=
  match obj.lookup k with
  | some (TokenVal.ref t) => some t
  | _ => none

/-- Embeds `generateAccessAndRefreshTokens(userId)` (user.controllers.js, lines
10-27): load the user, sign both tokens, store the refresh token on the
record and save it, and return the object literal
`{ accessToken, refreshToken }`. A failed lookup makes the method calls
throw inside the `try`, caught and rethrown as the 500 `ApiError`. The
clock advances past the issuance instant. -/
def generateAccessAndRefreshTokens (db : DB) (userId : Nat) :
    Except ApiError (DB × List (String × TokenVal)) :=
  match findById db userId with
  | none =>
      .error ⟨500, "Something went wrong while generating access and refresh tokens."⟩
  | some user =>
      let accessToken := user.generateAccessToken db.now
      let refreshToken := user.generateRefreshToken db.now
      let user' := { user with refreshToken := some refreshToken }
      .ok ({ db with users := saveUser db.users user', now := db.now + 1 },
           [("accessToken", TokenVal.acc accessToken),
            ("refreshToken", TokenVal.ref refreshToken)])

section CloudinaryUtil

/-- The object `cloudinary.v2.uploader.upload` resolves with, restricted
to the two properties the controllers read: `url` and `public_id`. -/
structure UploadedAsset where
  url : String
  public_id : String
deriving DecidableEq, Repr

/-- The remote media host's behaviour, fixed for a run: what
`cloudinary.v2.uploader.upload` yields for a local path (`none` models a
thrown upload error) and what `cloudinary.v2.uploader.destroy` yields for
a public id (`none` models a thrown delete error). -/
structure CloudEnv where
  uploadResult : String → Option UploadedAsset
  deleteResult : String → Option String

end CloudinaryUtil

/-- The observable side effects of the cloudinary utility: paths passed
to `fs.unlinkSync` and public ids passed to
`cloudinary.v2.uploader.destroy`, in call order. -/
structure MediaEffects where
  unlinked : List String
  destroyed : List String
deriving DecidableEq, Repr

/-- Embeds `uploadOnCloudinary(localFilePath)` (utils/cloudinary.js, lines
11-26): a falsy path returns `null` untouched; otherwise the file is
uploaded and then unlinked on the success path, and unlinked in the
`catch` on the failure path, before returning the response or `null`. -/
def uploadOnCloudinary (env : CloudEnv) (eff : MediaEffects)
    (localFilePath : Option String) : MediaEffects × Option UploadedAsset :=
  if jsTruthyS localFilePath then
    let p := localFilePath.getD ""
    match env.uploadResult p with
    | some response => ({ eff with unlinked := eff.unlinked ++ [p] }, some response)
    | none => ({ eff with unlinked := eff.unlinked ++ [p] }, none)
  else
    (eff, none)

/-- Embeds `deleteOnCloudinary(publicId)` (utils/cloudinary.js, lines 29-42): a
falsy id returns `null` without calling the host; otherwise `destroy` is
invoked once and its result returned, with a thrown error caught and
turned into `null`. -/
def deleteOnCloudinary (env : CloudEnv) (eff : MediaEffects)
    (publicId : String) : MediaEffects × Option String :=
  if publicId != "" then
    let eff' := { eff with destroyed := eff.destroyed ++ [publicId] }
    match env.deleteResult publicId with
    | some r => (eff', some r)
    | none => (eff', none)
  else
    (eff, none)

/-- One uploaded file part as multer exposes it (`.path`). -/
structure FilePart where
  path : String
deriving DecidableEq, Repr

/-- Shape of `req.files` for the register route: the multipart field map; each
field is `undefined` or an array of file parts. -/
structure Files where
  avatar : Option (List FilePart)
  coverImage : Option (List FilePart)
deriving DecidableEq, Repr

/-- Embeds `req.files?.avatar[0]?.path` (user.controllers.js, line 61): optional
chaining short-circuits the whole expression when `req.files` is
`undefined`, but the index into `avatar` is unguarded — when `files` is
present and `avatar` is `undefined`, indexing `undefined[0]` raises a
TypeError (`.error ()`); when `avatar[0]` is absent or its `path` is
read, the chained `?.path` yields the path or `undefined`. -/
def avatarLocalPathOf (files : Option Files) : Except Unit (Option String) :=
  match files with
  | none => .ok none
  | some fs =>
      match fs.avatar with
      | none => .error ()
      | some arr =>
          match arr.head? with
          | none => .ok none
          | some part => .ok (some part.path)

/-- The guarded cover-image path extraction (lines 64-71): only read when
`req.files` exists, `coverImage` is an array and it is nonempty. -/
def coverImagePathOf (files : Option Files) : Option String :=
  match files with
  | some fs =>
      match fs.coverImage with
      | some (p :: _) => some p.path
      | _ => none
  | none => none

/-- The body and files of a POST `/register` request. -/
structure RegisterRequest where
  fullName : Option String
  email : Option String
  username : Option String
  password : Option String
  files : Option Files
deriving DecidableEq, Repr

/-- Result of one controller run that can also mutate remote/file state:
the database and effect log after the run, and the response or error. -/
structure RegisterOutcome where
  db : DB
  eff : MediaEffects
  result : Except RunErr (Nat × List (String × FieldVal))
deriving Repr

/-- Embeds `registerUser` (user.controllers.js, lines 30-111). Empty-after-trim
fields are rejected (an `undefined` field slips through the `?.trim()`
check); `validator.isEmail`/`isLowercase` throw on `undefined` input; a
duplicate username/email is a 409; the avatar path is extracted by the
unguarded line-61 expression; both uploads run before the `!avatar`
check; `User.create` hashes the password via the pre-save hook and a
missing required field makes `create` throw a (non-ApiError) validation
error; the 201 response carries the read-back record minus
password/refreshToken/asset-id fields. -/
def registerUser (env : CloudEnv) (db : DB) (eff : MediaEffects)
    (req : RegisterRequest) : RegisterOutcome :=
  if [req.fullName, req.email, req.username, req.password].any
       (fun f => match f with | some s => jsTrim s == "" | none => false) then
    ⟨db, eff, .error (.api ⟨400, "all fields are must."⟩)⟩
  else
    match req.email with
    | none => ⟨db, eff, .error .jsError⟩
    | some email =>
      if !isEmail email then
        ⟨db, eff, .error (.api ⟨400, "email is invalid."⟩)⟩
      else
        match req.username with
        | none => ⟨db, eff, .error .jsError⟩
        | some username =>
          if !isLowercase username then
            ⟨db, eff, .error (.api ⟨400, "username should be lowercase."⟩)⟩
          else if (db.users.find? (fun u => u.username == username || u.email == email)).isSome then
            ⟨db, eff, .error (.api ⟨409, "email or username already in use."⟩)⟩
          else
            match avatarLocalPathOf req.files with
            | .error _ => ⟨db, eff, .error .jsError⟩
            | .ok avatarLocalPath =>
              let coverImageLocalPath := coverImagePathOf req.files
              if !jsTruthyS avatarLocalPath then
                ⟨db, eff, .error (.api ⟨400, "avatar is required."⟩)⟩
              else
                let upA := uploadOnCloudinary env eff avatarLocalPath
                let upC := uploadOnCloudinary env upA.1 coverImageLocalPath
                match upA.2 with
                | none => ⟨db, upC.1, .error (.api ⟨400, "avatar is required."⟩)⟩
                | some avatar =>
                  match req.fullName, req.password with
                  | some fullName, some password =>
                    let user : UserRecord :=
                      { _id := db.nextId,
                        username := jsToLower username,
                        email := email,
                        fullName := fullName,
                        avatar := avatar.url,
                        avatarId := avatar.public_id,
                        coverImage := ((upC.2.map (fun c => c.url)).getD ""),
                        coverImageId := ((upC.2.map (fun c => c.public_id)).getD ""),
                        password := bcryptHash 10 password,
                        refreshToken := none }
                    let db' : DB := { db with users := db.users ++ [user], nextId := db.nextId + 1 }
                    match findById db' user._id with
                    | none =>
                        ⟨db', upC.1, .error (.api ⟨500, "Something went wrong while registering the user."⟩)⟩
                    | some createdUser =>
                        ⟨db', upC.1,
                         .ok (201, selectExcl (toDoc createdUser)
                                ["password", "refreshToken", "avatarId", "coverImageId"])⟩
                  | _, _ => ⟨db, upC.1, .error .jsError⟩

/-- The body of a POST `/login` request. -/
structure LoginRequest where
  email : Option String
  username : Option String
  password : Option String
deriving DecidableEq, Repr

/-- Embeds `[a, b].some(field => field.trim() === "")` evaluated left to right:
calling `.trim()` on `undefined` throws (`.error ()`), and the scan stops
at the first empty-after-trim field. -/
def someTrimEmpty : List (Option String) → Except Unit Bool
  | [] => .ok false
  | f :: rest =>
      match f with
      | none => .error ()
      | some s => if jsTrim s == "" then .ok true else someTrimEmpty rest

/-- The format condition of lines 131-139. JS parses the expression as
`email ? isEmail(email) : ((false || username) ? isLowercase(username) : false)`
(`||` binds tighter than `?:`), so with a truthy email only the email
format is checked, otherwise a truthy username's lowercase-ness. -/
def loginFormatOk (email username : Option String) : Bool :=
  if jsTruthyS email then isEmail (email.getD "")
  else if jsTruthyS username then isLowercase (username.getD "")
  else false

/-- The pure validation prefix of `loginUser` (lines 116-139): the
identifier-presence check, the two short-circuiting empty-field scans of
lines 123-128, and the format check; `none` means validation passed. -/
def loginValidate (req : LoginRequest) : Option RunErr :=
  if !jsTruthyS req.username && !jsTruthyS req.email then
    some (.api ⟨400, "username or email is required."⟩)
  else
    match (if jsTruthyS req.username then someTrimEmpty [req.username, req.password]
           else Except.ok false) with
    | .error _ => some .jsError
    | .ok true => some (.api ⟨400, "all fields are must"⟩)
    | .ok false =>
      match (if jsTruthyS req.email then someTrimEmpty [req.email, req.password]
             else Except.ok false) with
      | .error _ => some .jsError
      | .ok true => some (.api ⟨400, "all fields are must"⟩)
      | .ok false =>
        if !loginFormatOk req.email req.username then
          some (.api ⟨400, "email or username is invalid."⟩)
        else
          none

/-- Embeds `User.findOne({ $or: [{ username }, { email }] })` in `loginUser`:
first record whose username or email equals the corresponding supplied
identifier. -/
def loginFindOne (db : DB) (username email : Option String) : Option UserRecord :=
  db.users.find? (fun u => username == some u.username || email == some u.email)

/-- The success payload of `loginUser`: the re-read projection (or `null`
when the re-read misses), the tokens in the body, and the two cookies. -/
structure LoginResponse where
  userDoc : Option (List (String × FieldVal))
  bodyAccessToken : Option AccessToken
  bodyRefreshToken : Option RefreshToken
  cookieAccessToken : Option AccessToken
  cookieRefreshToken : Option RefreshToken
  message : String
deriving DecidableEq, Repr

/-- Embeds `loginUser` (user.controllers.js, lines 114-188): validate, look the
user up, check the password with `isPasswordCorrect` (throwing the 400
"password incorrect." `ApiError` on mismatch), then issue and persist the
token pair and answer with projection, tokens and cookies. An error
return means the request aborted before any later step ran, so a
password mismatch issues no tokens and persists nothing. -/
def loginUser (db : DB) (req : LoginRequest) :
    Except RunErr (DB × LoginResponse) :=
  match loginValidate req with
  | some e => .error e
  | none =>
    match loginFindOne db req.username req.email with
    | none => .error (.api ⟨404, "user does not exist."⟩)
    | some existingUser =>
      if !bcryptCompare (req.password.getD "") existingUser.password then
        .error (.api ⟨400, "password incorrect."⟩)
      else
        match generateAccessAndRefreshTokens db existingUser._id with
        | .error e => .error (.api e)
        | .ok (db', pair) =>
          let accessToken := getAccessField pair "accessToken"
          let refreshToken := getRefreshField pair "refreshToken"
          let loggedInUser := (findById db' existingUser._id).map
            (fun u => selectExcl (toDoc u)
              ["password", "refreshToken", "avatarId", "coverImageId"])
          .ok (db', { userDoc := loggedInUser,
                      bodyAccessToken := accessToken,
                      bodyRefreshToken := refreshToken,
                      cookieAccessToken := accessToken,
                      cookieRefreshToken := refreshToken,
                      message := "user successfully logged in." })

/-- A JS value assigned to the `refreshToken` key of a `$set` update
document: `undefVal` is `undefined`, `nullVal` is `null`. -/
inductive SetValue where
  | undefVal : SetValue
  | nullVal : SetValue
  | tok : RefreshToken → SetValue
deriving DecidableEq, Repr

/-- Applying `$set: { refreshToken: v }` through Mongoose: Mongoose
strips keys whose value is `undefined` from an update document before
sending it (since Mongoose 6 this stripping is unconditional — the old
`omitUndefined` opt-in became the only behaviour), so assigning
`undefined` is a no-op on the stored record, while `null` or a token
value really writes the field. -/
def applySetRefreshToken (u : UserRecord) (v : SetValue) : UserRecord :=
  match v with
  | .undefVal => u
  | .nullVal => { u with refreshToken := none }
  | .tok t => { u with refreshToken := some t }

/-- The `logoutUser` response: status, cleared cookies, message. -/
structure LogoutResponse where
  status : Nat
  clearedCookies : List String
  message : String
deriving DecidableEq, Repr

/-- Embeds `logoutUser` (user.controllers.js, lines 191-218): a
`findByIdAndUpdate` whose update document is
`$set: { refreshToken: undefined }`, then both cookies are cleared and a
200 response sent. The update value is the JS literal `undefined`, so
the applied update is empty (see `applySetRefreshToken`). -/
def logoutUser (db : DB) (currentUserId : Nat) : DB × LogoutResponse :=
  let users' :=
    match findById db currentUserId with
    | none => db.users
    | some u => saveUser db.users (applySetRefreshToken u SetValue.undefVal)
  ({ db with users := users' },
   { status := 200,
     clearedCookies := ["accessToken", "refreshToken"],
     message := "user logged out successfully." })

/-- Embeds `jwt.verify(token, REFRESH_TOKEN_SECRET)` succeeds iff the token was
signed with that key. -/
def jwtVerifyRefresh (t : RefreshToken) : Bool :=
  t.secret == REFRESH_TOKEN_SECRET

/-- The `refreshAccessToken` success payload: both cookies and the two
body fields. `none` models the JS `undefined`. -/
structure RefreshResponse where
  cookieAccessToken : Option AccessToken
  cookieRefreshToken : Option RefreshToken
  bodyAccessToken : Option AccessToken
  bodyRefreshToken : Option RefreshToken
  message : String
deriving DecidableEq, Repr

/-- The `try` block of `refreshAccessToken` (lines 236-273): verify the
incoming token, load the user by the decoded `_id`, reject a token that
does not exactly equal the stored one, then rotate. The rotation result
is destructured as `const { accessToken, newRefreshToken } = ...`, but
the returned object's keys are `accessToken` and `refreshToken`, so
`newRefreshToken` reads as `undefined` and that `undefined` is what goes
into the `refreshToken` cookie and body field. -/
def refreshAccessTokenInner (db : DB) (tok : RefreshToken) :
    Except ApiError (DB × RefreshResponse) :=
  if !jwtVerifyRefresh tok then
    .error ⟨401, "invalid signature"⟩
  else
    match findById db tok._id with
    | none => .error ⟨401, "invalid refresh token."⟩
    | some user =>
      if some tok ≠ user.refreshToken then
        .error ⟨401, "refresh token is expired or used."⟩
      else
        match generateAccessAndRefreshTokens db user._id with
        | .error e => .error e
        | .ok (db', pair) =>
          let accessToken := getAccessField pair "accessToken"
          let newRefreshToken := getRefreshField pair "newRefreshToken"
          .ok (db', { cookieAccessToken := accessToken,
                      cookieRefreshToken := newRefreshToken,
                      bodyAccessToken := accessToken,
                      bodyRefreshToken := newRefreshToken,
                      message := "access token refreshed." })

/-- Embeds `refreshAccessToken` (user.controllers.js, lines 221-277): a missing
incoming token is a bare 401; everything else runs in the `try` block,
whose `catch` rethrows any error as a 401 `ApiError` carrying the
original message. -/
def refreshAccessToken (db : DB) (incomingRefreshToken : Option RefreshToken) :
    Except ApiError (DB × RefreshResponse) :=
  match incomingRefreshToken with
  | none => .error ⟨401, "unauthorized request."⟩
  | some tok =>
    match refreshAccessTokenInner db tok with
    | .error e => .error ⟨401, e.message⟩
    | .ok r => .ok r

/-- Embeds `updateUserDetails` (user.controllers.js, lines 321-348): a falsy
`fullName` or `email` throws `ApiError(401, ...)` (the code uses 401
here, not 400); otherwise the two fields are `$set` and the updated
record minus password/refreshToken returned (`null` if the lookup
misses — the code does not check). -/
def updateUserDetails (db : DB) (reqUserId : Nat)
    (fullName email : Option String) :
    DB × Except ApiError (Option (List (String × FieldVal))) :=
  if !jsTruthyS fullName || !jsTruthyS email then
    (db, .error ⟨401, "fullname and email are required."⟩)
  else
    match findById db reqUserId with
    | none => (db, .ok none)
    | some u =>
      let u' := { u with fullName := fullName.getD "", email := email.getD "" }
      ({ db with users := saveUser db.users u' },
       .ok (some (selectExcl (toDoc u') ["password", "refreshToken"])))

/-- Result of `updateUserAvatar`: final database, final effect log, and
the response or error. -/
structure AvatarOutcome where
  db : DB
  eff : MediaEffects
  result : Except ApiError (List (String × FieldVal))
deriving Repr

/-- Embeds `updateUserAvatar` (user.controllers.js, lines 350-409): require the
multer file, upload it, `$set` the new `avatar`/`avatarId` on the user
record, then read the previous asset id from the middleware's `req.user`
(captured before the update), call `deleteOnCloudinary` on it once, and
only then fail with the 400 "Error while deleting the current avatar" if
the delete reported failure — the already-saved new URL/asset id is not
rolled back. -/
def updateUserAvatar (env : CloudEnv) (db : DB) (eff : MediaEffects)
    (reqUser : UserRecord) (reqFilePath : Option String) : AvatarOutcome :=
  if !jsTruthyS reqFilePath then
    ⟨db, eff, .error ⟨400, "Avatar file is missing."⟩⟩
  else
    let up := uploadOnCloudinary env eff reqFilePath
    match up.2 with
    | none => ⟨db, up.1, .error ⟨400, "Error while uploading a new avatar to cloudinary."⟩⟩
    | some newAvatar =>
      match findById db reqUser._id with
      | none => ⟨db, up.1, .error ⟨401, "unauthorized request."⟩⟩
      | some u =>
        let u' := { u with avatar := newAvatar.url, avatarId := newAvatar.public_id }
        let db' : DB := { db with users := saveUser db.users u' }
        let oldAvatarId := reqUser.avatarId
        if oldAvatarId == "" then
          ⟨db', up.1, .error ⟨400, "unauthorized request."⟩⟩
        else
          let del := deleteOnCloudinary env up.1 oldAvatarId
          match del.2 with
          | none => ⟨db', del.1, .error ⟨400, "Error while deleting the current avatar"⟩⟩
          | some _ =>
            ⟨db', del.1,
             .ok (selectExcl (toDoc u')
                ["password", "refreshToken", "avatarId", "coverImageId"])⟩

/-! ### Helper lemmas about the store -/

theorem saveUser_self (l : List UserRecord) (u : UserRecord)
    (h : l.find? (fun v => v._id == u._id) = some u) : saveUser l u = l := by
  induction l with
  | nil => rfl
  | cons a rest ih =>
    simp only [List.find?] at h
    by_cases ha : (a._id == u._id) = true
    · simp only [ha] at h
      cases h
      simp [saveUser, ha]
    · simp only [Bool.not_eq_true] at ha
      simp only [ha] at h
      simp only [saveUser]
      rw [if_neg (by simp [ha]), ih h]

theorem find?_saveUser_same (l : List UserRecord) (u u' : UserRecord) (i : Nat)
    (h : l.find? (fun v => v._id == i) = some u) (hid : u'._id = u._id) :
    (saveUser l u').find? (fun v => v._id == i) = some u' := by
  have hu' := List.find?_some (p := fun v => v._id == i) (a := u) h
  have hu : (u._id == i) = true := by simpa using hu'
  induction l with
  | nil => simp [List.find?] at h
  | cons a rest ih =>
    simp only [List.find?] at h
    by_cases ha : (a._id == i) = true
    · simp only [ha] at h
      cases h
      have h1 : (u._id == u'._id) = true := by
        simp only [beq_iff_eq] at *
        omega
      have h2 : (u'._id == i) = true := by
        simp only [beq_iff_eq] at *
        omega
      simp [saveUser, h1, List.find?, h2]
    · simp only [Bool.not_eq_true] at ha
      simp only [ha] at h
      have h1 : (a._id == u'._id) = false := by
        simp only [beq_iff_eq, beq_eq_false_iff_ne, ne_eq] at *
        omega
      simp only [saveUser, h1, Bool.false_eq_true, if_false, List.find?, ha]
      exact ih h

theorem find?_saveUser_other (l : List UserRecord) (u' : UserRecord) (i : Nat)
    (hid : u'._id ≠ i) :
    (saveUser l u').find? (fun v => v._id == i) = l.find? (fun v => v._id == i) := by
  induction l with
  | nil => rfl
  | cons a rest ih =>
    by_cases ha : (a._id == u'._id) = true
    · have hai : (a._id == i) = false := by
        simp only [beq_iff_eq, beq_eq_false_iff_ne, ne_eq] at *
        omega
      have hu'i : (u'._id == i) = false := by
        simp only [beq_eq_false_iff_ne, ne_eq]
        exact hid
      simp [saveUser, ha, List.find?, hai, hu'i]
    · simp only [Bool.not_eq_true] at ha
      simp only [saveUser, ha, Bool.false_eq_true, if_false]
      simp only [List.find?]
      cases hai : (a._id == i) <;> simp [hai, ih]

/-! ### Characterizations of token rotation -/

theorem generate_ok_elim (db : DB) (uid : Nat) (db' : DB)
    (pair : List (String × TokenVal))
    (h : generateAccessAndRefreshTokens db uid = .ok (db', pair)) :
    ∃ user, findById db uid = some user ∧
      db'.users = saveUser db.users
        { user with refreshToken := some (user.generateRefreshToken db.now) } ∧
      db'.now = db.now + 1 ∧ db'.nextId = db.nextId ∧
      pair = [("accessToken", TokenVal.acc (user.generateAccessToken db.now)),
              ("refreshToken", TokenVal.ref (user.generateRefreshToken db.now))] := by
  unfold generateAccessAndRefreshTokens at h
  cases hf : findById db uid with
  | none => rw [hf] at h; cases h
  | some user =>
    rw [hf] at h
    cases h
    exact ⟨user, rfl, rfl, rfl, rfl, rfl⟩

theorem refresh_ok_elim (db : DB) (t : RefreshToken) (db' : DB)
    (r : RefreshResponse)
    (h : refreshAccessToken db (some t) = .ok (db', r)) :
    jwtVerifyRefresh t = true ∧
    ∃ user, findById db t._id = some user ∧ user.refreshToken = some t ∧
      user._id = t._id ∧
      db'.users = saveUser db.users
        { user with refreshToken := some (user.generateRefreshToken db.now) } ∧
      db'.now = db.now + 1 ∧ db'.nextId = db.nextId := by
  simp only [refreshAccessToken] at h
  split at h
  · cases h
  · rename_i p heq
    cases h
    simp only [refreshAccessTokenInner] at heq
    split at heq
    · cases heq
    · split at heq
      · cases heq
      · rename_i hv hfm user hf
        split at heq
        · cases heq
        · rename_i hm
          push_neg at hm
          split at heq
          · cases heq
          · rename_i db2 pair hg
            simp only [Except.ok.injEq, Prod.mk.injEq] at heq
            obtain ⟨hdb, hresp⟩ := heq
            subst hdb
            have hf' := hf
            unfold findById at hf'
            have hidm : user._id = t._id := by
              have := List.find?_some (p := fun v => v._id == t._id) (a := user) hf'
              simpa [beq_iff_eq] using this
            obtain ⟨user2, hf2, husers, hnow, hnext, hpair⟩ :=
              generate_ok_elim db user._id db2 pair hg
            rw [hidm, hf] at hf2
            cases hf2
            refine ⟨by simpa using hv, user, hf, hm.symm, hidm, husers, hnow, hnext⟩

/-- A stored refresh token was signed strictly before the current
instant (true of every state the running system reaches, because a
token is stored at the instant it is signed and the clock then
advances). -/
def tokenFresh (now : Nat) (u : UserRecord) : Bool :=
  match u.refreshToken with
  | some t => t.iat < now
  | none => true

/-- Every stored refresh token in the database is fresh. -/
def StoredFresh (db : DB) : Prop :=
  ∀ u ∈ db.users, tokenFresh db.now u = true

instance : DecidablePred StoredFresh := fun db =>
  List.decidableBAll (fun u => tokenFresh db.now u = true) db.users

/-- States reachable by any sequence of successful refresh calls. -/
inductive RefreshReach : DB → DB → Prop
  | refl (db : DB) : RefreshReach db db
  | step {db db' db'' : DB} (t : Option RefreshToken) (r : RefreshResponse) :
      RefreshReach db db' → refreshAccessToken db' t = Except.ok (db'', r) →
      RefreshReach db db''

/-- The outcome is an error with HTTP status 401. -/
def fails401 {α : Type} : Except ApiError α → Prop
  | .error e => e.statusCode = 401
  | .ok _ => False

/-- Invariant that makes a stale token `t` permanently unusable:
`t` is stale (signed before now) and the record `t` points at stores a
strictly newer token. -/
def InvT (t : RefreshToken) (db : DB) : Prop :=
  t.iat < db.now ∧
  ∀ u, findById db t._id = some u →
    ∃ rt, u.refreshToken = some rt ∧ t.iat < rt.iat

theorem InvT_step (t : RefreshToken) (db db' : DB) (s : Option RefreshToken)
    (r : RefreshResponse)
    (hok : refreshAccessToken db s = Except.ok (db', r)) (hinv : InvT t db) :
    InvT t db' := by
  cases s with
  | none => simp [refreshAccessToken] at hok
  | some s' =>
    obtain ⟨hv, v, hfv, hstored, hid, husers, hnow, hnext⟩ :=
      refresh_ok_elim db s' db' r hok
    constructor
    · rw [hnow]
      have := hinv.1
      omega
    · intro u hu
      unfold findById at hu
      rw [husers] at hu
      by_cases hvt : v._id = t._id
      · have hft : db.users.find? (fun w => w._id == t._id) = some v := by
          have hfv' := hfv
          unfold findById at hfv'
          rw [hid] at hvt
          rw [hvt] at hfv'
          exact hfv'
        rw [find?_saveUser_same db.users v
              { v with refreshToken := some (v.generateRefreshToken db.now) }
              t._id hft rfl] at hu
        cases hu
        exact ⟨v.generateRefreshToken db.now, rfl, hinv.1⟩
      · rw [find?_saveUser_other db.users
              { v with refreshToken := some (v.generateRefreshToken db.now) }
              t._id hvt] at hu
        exact hinv.2 u hu

theorem InvT_reach (t : RefreshToken) {db db' : DB}
    (h : RefreshReach db db') (hinv : InvT t db) : InvT t db' := by
  induction h with
  | refl => exact hinv
  | step s r _ hok ih => exact InvT_step t _ _ s r hok ih

theorem refresh_error_status (db : DB) (t : RefreshToken) (e : ApiError)
    (h : refreshAccessToken db (some t) = .error e) : e.statusCode = 401 := by
  simp only [refreshAccessToken] at h
  split at h
  · rename_i e' heq
    cases h
    rfl
  · cases h

theorem InvT_fails (t : RefreshToken) (db : DB) (hinv : InvT t db) :
    fails401 (refreshAccessToken db (some t)) := by
  cases hres : refreshAccessToken db (some t) with
  | ok p =>
    obtain ⟨db2, r⟩ := p
    obtain ⟨hv, u, hf, hstored, _, _, _, _⟩ := refresh_ok_elim db t db2 r hres
    obtain ⟨rt, hrt, hlt⟩ := hinv.2 u hf
    rw [hstored] at hrt
    cases hrt
    omega
  | error e =>
    have := refresh_error_status db t e hres
    simpa [fails401] using this

/-! ### Concrete example state used by several witnesses -/

/-- A refresh token stored for the example user, signed at instant 0. -/
def rtW : RefreshToken := ⟨1, REFRESH_TOKEN_SECRET, 0⟩

/-- Example user with an active session. -/
def userW : UserRecord :=
  { _id := 1, username := "ann", email := "a@b.c", fullName := "Ann",
    avatar := "http://u", avatarId := "aid1", coverImage := "", coverImageId := "",
    password := bcryptHash 10 "pw", refreshToken := some rtW }

/-- Example database holding `userW`, clock at instant 1. -/
def dbW : DB := ⟨[userW], 2, 1⟩

/-- The state after one successful refresh call on `dbW` with `rtW`. -/
def dbW1 : DB := ⟨[{ userW with refreshToken := some ⟨1, REFRESH_TOKEN_SECRET, 1⟩ }], 2, 2⟩

/-- The response of that successful refresh call. -/
def respW1 : RefreshResponse :=
  { cookieAccessToken := some ⟨1, "a@b.c", "ann", "Ann", ACCESS_TOKEN_SECRET, 1⟩,
    cookieRefreshToken := none,
    bodyAccessToken := some ⟨1, "a@b.c", "ann", "Ann", ACCESS_TOKEN_SECRET, 1⟩,
    bodyRefreshToken := none,
    message := "access token refreshed." }

/-- C1. In `refreshAccessToken`, whenever the incoming refresh token
verifies cryptographically and a user record is found by the decoded id
but the token is not exactly the user's stored `refreshToken`, the call
fails with the 401 "refresh token is expired or used." `ApiError` — an
error return, so no new token pair is issued and no state is produced.
Consequently, after a successful rotation (from any state whose stored
tokens are fresh), the refresh token that was just consumed fails every
subsequent refresh call, over any further chain of successful refresh
calls. -/
theorem c1_refresh_rotation_single_use :
    (∀ (db : DB) (t : RefreshToken) (user : UserRecord),
        jwtVerifyRefresh t = true →
        findById db t._id = some user →
        some t ≠ user.refreshToken →
        refreshAccessToken db (some t) =
          .error ⟨401, "refresh token is expired or used."⟩)
    ∧
    (∀ (db db' db'' : DB) (t : RefreshToken) (r : RefreshResponse),
        StoredFresh db →
        refreshAccessToken db (some t) = .ok (db', r) →
        RefreshReach db' db'' →
        fails401 (refreshAccessToken db'' (some t))) := by
  constructor
  · intro db t user hv hf hne
    have hinner : refreshAccessTokenInner db t =
        .error ⟨401, "refresh token is expired or used."⟩ := by
      unfold refreshAccessTokenInner
      rw [hv]
      simp only [Bool.not_true, Bool.false_eq_true, if_false]
      simp only [hf]
      rw [if_pos hne]
    simp [refreshAccessToken, hinner]
  · intro db db' db'' t r hfresh hok hreach
    obtain ⟨hv, user, hf, hstored, hid, husers, hnow, hnext⟩ :=
      refresh_ok_elim db t db' r hok
    have hf' := hf
    unfold findById at hf'
    have hmem : user ∈ db.users := List.mem_of_find?_eq_some hf'
    have hfr := hfresh user hmem
    unfold tokenFresh at hfr
    rw [hstored] at hfr
    have hlt : t.iat < db.now := by simpa using hfr
    have hinv' : InvT t db' := by
      constructor
      · rw [hnow]; omega
      · intro u hu
        unfold findById at hu
        rw [husers] at hu
        rw [find?_saveUser_same db.users user
              { user with refreshToken := some (user.generateRefreshToken db.now) }
              t._id hf' rfl] at hu
        cases hu
        exact ⟨user.generateRefreshToken db.now, rfl, hlt⟩
    exact InvT_fails t db'' (InvT_reach t hreach hinv')

/-- Witness for C1 at concrete inputs: a verified token for the right
user that mismatches the stored one is rejected with the exact 401
error, and after the successful rotation `dbW → dbW1` the consumed token
`rtW` fails the next refresh call. -/
theorem c1_refresh_rotation_single_use_witness :
    refreshAccessToken dbW (some ⟨1, REFRESH_TOKEN_SECRET, 5⟩) =
      .error ⟨401, "refresh token is expired or used."⟩ ∧
    fails401 (refreshAccessToken dbW1 (some rtW)) :=
  ⟨c1_refresh_rotation_single_use.1 dbW ⟨1, REFRESH_TOKEN_SECRET, 5⟩ userW
      (by decide) (by decide) (by decide),
   c1_refresh_rotation_single_use.2 dbW dbW1 dbW1 rtW respW1
      (by decide) (by rfl) (RefreshReach.refl dbW1)⟩

/-- Lemma: `logoutUser` never changes any stored user record: the update
document `$set: { refreshToken: undefined }` is stripped to an empty
update by Mongoose's handling of `undefined`, so the `$set` is a no-op. -/
theorem logoutUser_preserves_users (db : DB) (uid : Nat) :
    (logoutUser db uid).1.users = db.users := by
  unfold logoutUser
  cases hf : findById db uid with
  | none => simp
  | some u =>
    simp only [applySetRefreshToken]
    have hu : u._id = uid := by
      unfold findById at hf
      have := List.find?_some (p := fun v => v._id == uid) (a := u) hf
      simpa [beq_iff_eq] using this
    subst hu
    unfold findById at hf
    exact saveUser_self db.users u hf

/-- C2 (code bug). The claim matches the code's stated intent ("delete
the refreshToken from the database"), but the implementation passes the
JS literal `undefined` inside `$set`, which Mongoose strips from the
update, so logout leaves the stored `refreshToken` in place: at the
concrete state `dbW`, logging user 1 out leaves the database unchanged,
and a subsequent `refreshAccessToken` with the pre-logout token `rtW`
still succeeds instead of being rejected. -/
theorem c2_logout_leaves_refresh_token_usable :
    (logoutUser dbW 1).1 = dbW ∧
    refreshAccessToken (logoutUser dbW 1).1 (some rtW) = .ok (dbW1, respW1) := by
  constructor
  · decide
  · have h : (logoutUser dbW 1).1 = dbW := by decide
    rw [h]
    rfl

/-- C4 (code bug). A fully valid refresh call does rotate and persist
the new refresh token, and returns the new access token — but the
response's `refreshToken` cookie and body field are `undefined`
(`none`), because the code destructures `newRefreshToken` from an object
whose key is `refreshToken`. Evaluated at the concrete state `dbW` with
the valid stored token `rtW`. -/
theorem c4_refresh_rotates_but_returns_undefined_token :
    refreshAccessToken dbW (some rtW) = .ok (dbW1, respW1) ∧
    (findById dbW1 1).map (fun u => u.refreshToken) =
      some (some ⟨1, REFRESH_TOKEN_SECRET, 1⟩) ∧
    respW1.bodyAccessToken =
      some ⟨1, "a@b.c", "ann", "Ann", ACCESS_TOKEN_SECRET, 1⟩ ∧
    respW1.bodyRefreshToken = none ∧
    respW1.cookieRefreshToken = none := by
  refine ⟨by rfl, by decide, by decide, rfl, rfl⟩

/-- C3 counterexample. At the concrete state `dbW`, the identifier
"ann" matches the existing user and the submitted password "wrong" does
not verify against the stored hash, yet `loginUser` fails with status
400 ("password incorrect."), not with the claimed UnauthorizedError
401. -/
theorem c3_counterexample_wrong_password_status_400 :
    loginFindOne dbW (some "ann") none = some userW ∧
    bcryptCompare "wrong" userW.password = false ∧
    loginUser dbW ⟨none, some "ann", some "wrong"⟩ =
      .error (.api ⟨400, "password incorrect."⟩) := by
  refine ⟨by decide, by decide, by rfl⟩

/-- C3 as amended: when validation passes, the lookup finds a user and
the submitted password does not verify against the stored hash,
`loginUser` fails with the `ApiError` of status 400 and message
"password incorrect." (the code's actual status for this branch); the
error return aborts the call before `generateAccessAndRefreshTokens`,
so no tokens are issued and no refresh token is persisted. -/
theorem c3_amended_wrong_password_rejected (db : DB) (req : LoginRequest)
    (u : UserRecord)
    (hval : loginValidate req = none)
    (hfind : loginFindOne db req.username req.email = some u)
    (hpw : bcryptCompare (req.password.getD "") u.password = false) :
    loginUser db req = .error (.api ⟨400, "password incorrect."⟩) := by
  unfold loginUser
  rw [hval]
  simp only [hfind, hpw, Bool.not_false, if_true]

/-- Witness for the amended C3 at the concrete counterexample input. -/
theorem c3_amended_wrong_password_rejected_witness :
    loginUser dbW ⟨none, some "ann", some "wrong"⟩ =
      .error (.api ⟨400, "password incorrect."⟩) :=
  c3_amended_wrong_password_rejected dbW ⟨none, some "ann", some "wrong"⟩ userW
    (by decide) (by decide) (by decide)

/-- A key listed in the exclusion list never survives `selectExcl`. -/
theorem lookup_selectExcl_none (doc : List (String × FieldVal))
    (excl : List String) (k : String) (hk : excl.contains k = true) :
    (selectExcl doc excl).lookup k = none := by
  induction doc with
  | nil => rfl
  | cons kv rest ih =>
    unfold selectExcl at *
    by_cases h : excl.contains kv.1 = true
    · simp only [List.filter_cons, h, Bool.not_true, Bool.false_eq_true, if_false]
      exact ih
    · simp only [List.filter_cons, h, Bool.not_false, if_true]
      have hne : (k == kv.1) = false := by
        simp only [Bool.not_eq_true] at h
        by_cases he : k = kv.1
        · rw [he] at hk; rw [hk] at h; cases h
        · simp [he]
      simp only [List.lookup, hne]
      exact ih

/-- C9 counterexample. At the concrete state `dbW`, an update-user
request missing `email` fails with `ApiError` status 401 — not the 400
the taxonomy assigns to ValidationError. -/
theorem c9_counterexample_missing_email_status_401 :
    (updateUserDetails dbW 1 (some "New Name") none).2 =
      .error ⟨401, "fullname and email are required."⟩ := by
  rfl

/-- C9 as amended: a missing (falsy) `fullName` or `email` fails with
the `ApiError` of status 401 and message "fullname and email are
required." (the code uses 401 here, not the taxonomy's 400); when both
are present and the user is found, the call succeeds and returns the
updated projection, which contains neither `password` nor
`refreshToken`. -/
theorem c9_amended_update_user_details (db : DB) (uid : Nat)
    (fn em : Option String) :
    ((jsTruthyS fn = false ∨ jsTruthyS em = false) →
      (updateUserDetails db uid fn em).2 =
        .error ⟨401, "fullname and email are required."⟩)
    ∧
    (∀ u, jsTruthyS fn = true → jsTruthyS em = true →
      findById db uid = some u →
      (updateUserDetails db uid fn em).2 =
        .ok (some (selectExcl
          (toDoc { u with fullName := fn.getD "", email := em.getD "" })
          ["password", "refreshToken"])) ∧
      (selectExcl (toDoc { u with fullName := fn.getD "", email := em.getD "" })
          ["password", "refreshToken"]).lookup "password" = none ∧
      (selectExcl (toDoc { u with fullName := fn.getD "", email := em.getD "" })
          ["password", "refreshToken"]).lookup "refreshToken" = none) := by
  constructor
  · intro h
    unfold updateUserDetails
    rcases h with h | h <;> simp [h]
  · intro u hfn hem hfind
    refine ⟨?_, ?_, ?_⟩
    · unfold updateUserDetails
      simp only [hfn, hem, Bool.not_true, Bool.false_or, Bool.or_self,
        Bool.false_eq_true, if_false, hfind]
    · exact lookup_selectExcl_none _ _ _ (by decide)
    · exact lookup_selectExcl_none _ _ _ (by decide)

/-- Witness for the amended C9: the missing-email branch at `dbW`, and
the success branch updating user 1's name and email. -/
theorem c9_amended_update_user_details_witness :
    (updateUserDetails dbW 1 (some "New Name") none).2 =
      .error ⟨401, "fullname and email are required."⟩ ∧
    (updateUserDetails dbW 1 (some "New Name") (some "n@x.y")).2 =
      .ok (some (selectExcl
        (toDoc { userW with fullName := "New Name", email := "n@x.y" })
        ["password", "refreshToken"])) :=
  ⟨(c9_amended_update_user_details dbW 1 (some "New Name") none).1
      (Or.inr (by decide)),
   ((c9_amended_update_user_details dbW 1 (some "New Name") (some "n@x.y")).2
      userW (by decide) (by decide) (by decide)).1⟩

/-- C6. Every `uploadOnCloudinary` call with a non-null (truthy) local
file path unlinks the local temporary file exactly once — one new entry
in the unlink log — on the success path and on the failure path alike,
and returns exactly what the remote upload yielded (`none` on
failure). -/
theorem c6_upload_unlinks_exactly_once (env : CloudEnv) (eff : MediaEffects)
    (p : String) (hp : p ≠ "") :
    (uploadOnCloudinary env eff (some p)).1.unlinked = eff.unlinked ++ [p] ∧
    (uploadOnCloudinary env eff (some p)).1.destroyed = eff.destroyed ∧
    (uploadOnCloudinary env eff (some p)).2 = env.uploadResult p := by
  have ht : jsTruthyS (some p) = true := by simp [jsTruthyS, hp]
  unfold uploadOnCloudinary
  rw [ht]
  cases h : env.uploadResult p <;> simp [h]

/-- A concrete media host for witnesses: uploading "tmp/new.png"
succeeds, uploading anything else fails, and every delete fails. -/
def envW : CloudEnv :=
  { uploadResult := fun p =>
      if p = "tmp/new.png" then some ⟨"http://new", "newid"⟩ else none,
    deleteResult := fun _ => none }

/-- A concrete media host for witnesses whose deletes succeed. -/
def envOkW : CloudEnv :=
  { uploadResult := fun p =>
      if p = "tmp/new.png" then some ⟨"http://new", "newid"⟩ else none,
    deleteResult := fun _ => some "ok" }

/-- Witness for C6 at concrete inputs: one successful upload and one
failing upload, each unlinking its temp file exactly once. -/
theorem c6_upload_unlinks_exactly_once_witness :
    ((uploadOnCloudinary envW ⟨[], []⟩ (some "tmp/new.png")).1.unlinked =
        [] ++ ["tmp/new.png"] ∧
      (uploadOnCloudinary envW ⟨[], []⟩ (some "tmp/new.png")).1.destroyed = [] ∧
      (uploadOnCloudinary envW ⟨[], []⟩ (some "tmp/new.png")).2 =
        envW.uploadResult "tmp/new.png") ∧
    ((uploadOnCloudinary envW ⟨[], []⟩ (some "tmp/broken.png")).1.unlinked =
        [] ++ ["tmp/broken.png"] ∧
      (uploadOnCloudinary envW ⟨[], []⟩ (some "tmp/broken.png")).1.destroyed = [] ∧
      (uploadOnCloudinary envW ⟨[], []⟩ (some "tmp/broken.png")).2 =
        envW.uploadResult "tmp/broken.png") :=
  ⟨c6_upload_unlinks_exactly_once envW ⟨[], []⟩ "tmp/new.png" (by decide),
   c6_upload_unlinks_exactly_once envW ⟨[], []⟩ "tmp/broken.png" (by decide)⟩

/-- C5. In `updateUserAvatar`, once the new upload succeeds the new
avatar URL and asset id are `$set` on the user record, and this happens
before the delete of the old asset: whatever the delete's outcome, the
updated record is persisted and exactly one delete call is made against
the old asset id; when the delete reports failure the call fails with
the 400 `ApiError` "Error while deleting the current avatar", yet the
persisted new URL/asset id stands un-rolled-back. -/
theorem c5_update_avatar_commit_before_delete
    (env : CloudEnv) (db : DB) (eff : MediaEffects) (reqUser : UserRecord)
    (p : String) (asset : UploadedAsset) (u : UserRecord)
    (hp : p ≠ "")
    (hup : env.uploadResult p = some asset)
    (hfind : findById db reqUser._id = some u)
    (hold : reqUser.avatarId ≠ "") :
    findById (updateUserAvatar env db eff reqUser (some p)).db reqUser._id =
      some { u with avatar := asset.url, avatarId := asset.public_id } ∧
    (updateUserAvatar env db eff reqUser (some p)).eff.destroyed =
      eff.destroyed ++ [reqUser.avatarId] ∧
    (env.deleteResult reqUser.avatarId = none →
      (updateUserAvatar env db eff reqUser (some p)).result =
        .error ⟨400, "Error while deleting the current avatar"⟩) := by
  have ht : jsTruthyS (some p) = true := by simp [jsTruthyS, hp]
  have hout : findById { db with users := (saveUser db.users
      { u with avatar := asset.url, avatarId := asset.public_id }) } reqUser._id =
      some { u with avatar := asset.url, avatarId := asset.public_id } := by
    unfold findById at hfind ⊢
    exact find?_saveUser_same db.users u
      { u with avatar := asset.url, avatarId := asset.public_id }
      reqUser._id hfind rfl
  have holdb : (reqUser.avatarId == "") = false := by simp [hold]
  unfold updateUserAvatar
  rw [ht]
  simp only [Bool.not_true, Bool.false_eq_true, if_false]
  unfold uploadOnCloudinary
  rw [ht]
  simp only [Option.getD_some, hup, hfind, holdb]
  unfold deleteOnCloudinary
  rw [show (reqUser.avatarId != "") = true by simp [hold]]
  cases hdel : env.deleteResult reqUser.avatarId <;>
    simp [hdel, hout]

/-- Witness for C5: the concrete user `userW` (old asset id "aid1")
uploads "tmp/new.png" against a host whose delete fails; the new
URL/asset id is persisted, exactly one delete call hits "aid1", and the
call errors with the delete-failure 400. -/
theorem c5_update_avatar_commit_before_delete_witness :
    findById (updateUserAvatar envW dbW ⟨[], []⟩ userW (some "tmp/new.png")).db
        userW._id =
      some { userW with avatar := "http://new", avatarId := "newid" } ∧
    (updateUserAvatar envW dbW ⟨[], []⟩ userW (some "tmp/new.png")).eff.destroyed =
      [] ++ [userW.avatarId] ∧
    (envW.deleteResult userW.avatarId = none →
      (updateUserAvatar envW dbW ⟨[], []⟩ userW (some "tmp/new.png")).result =
        .error ⟨400, "Error while deleting the current avatar"⟩) :=
  c5_update_avatar_commit_before_delete envW dbW ⟨[], []⟩ userW "tmp/new.png"
    ⟨"http://new", "newid"⟩ userW (by decide) (by rfl) (by decide) (by decide)

/-- Appending a record with a fresh `_id` to the collection makes it the
one `findById` returns for that id. -/
theorem findById_append_fresh (users : List UserRecord) (u : UserRecord)
    (n m k : Nat)
    (hnone : users.find? (fun v => v._id == k) = none) (hu : u._id = k) :
    findById ⟨users ++ [u], n, m⟩ k = some u := by
  unfold findById
  simp [List.find?_append, hnone, List.find?, hu]

/-- A bcrypt digest is never the plaintext it came from: the
`$2b$<cost>$` header makes it strictly longer. -/
theorem bcryptHash_ne (c : Nat) (p : String) : bcryptHash c p ≠ p := by
  intro h
  have hl := congrArg String.length h
  rw [bcryptHash] at hl
  rw [String.length_append, String.length_append, String.length_append] at hl
  have h4 : String.length "$2b$" = 4 := by decide
  have h1 : String.length "$" = 1 := by decide
  rw [h4, h1] at hl
  omega

/-- C7. For every registration whose text fields pass validation, whose
identifiers are not yet taken, whose fresh `_id` is unused, and whose
avatar file uploads successfully, the persisted record's `password` is
the bcrypt digest of the submitted plaintext — never the plaintext
itself — and the 201 response's projection contains neither a
`password` nor a `refreshToken` key. -/
theorem c7_register_hashes_password_and_hides_secrets
    (env : CloudEnv) (db : DB) (eff : MediaEffects)
    (fn em un pw p : String) (cover : Option (List FilePart))
    (asset : UploadedAsset)
    (hfn : jsTrim fn ≠ "") (hem : jsTrim em ≠ "") (hun : jsTrim un ≠ "")
    (hpw : jsTrim pw ≠ "")
    (hemail : isEmail em = true) (hlower : isLowercase un = true)
    (hnew : db.users.find? (fun u => u.username == un || u.email == em) = none)
    (hid : findById db db.nextId = none)
    (hp : p ≠ "")
    (hup : env.uploadResult p = some asset) :
    (∃ doc,
      (registerUser env db eff ⟨some fn, some em, some un, some pw,
          some ⟨some [⟨p⟩], cover⟩⟩).result = .ok (201, doc) ∧
      doc.lookup "password" = none ∧
      doc.lookup "refreshToken" = none) ∧
    ∃ c, findById (registerUser env db eff ⟨some fn, some em, some un, some pw,
          some ⟨some [⟨p⟩], cover⟩⟩).db db.nextId = some c ∧
      c.password = bcryptHash 10 pw ∧
      c.password ≠ pw := by
  have hfn' : (jsTrim fn == "") = false := by simp [hfn]
  have hem' : (jsTrim em == "") = false := by simp [hem]
  have hun' : (jsTrim un == "") = false := by simp [hun]
  have hpw' : (jsTrim pw == "") = false := by simp [hpw]
  have hp' : jsTruthyS (some p) = true := by simp [jsTruthyS, hp]
  have havp : avatarLocalPathOf (some ⟨some [⟨p⟩], cover⟩) = .ok (some p) := rfl
  unfold registerUser
  simp only [List.any_cons, List.any_nil, hfn', hem', hun', hpw',
    Bool.or_self, Bool.or_false, Bool.false_eq_true, if_false,
    hemail, hlower, Bool.not_true, hnew, Option.isSome_none, havp, hp',
    Option.getD_some]
  unfold uploadOnCloudinary
  simp only [hp', if_true, Option.getD_some, hup]
  have hid' : db.users.find? (fun v => v._id == db.nextId) = none := hid
  rw [findById_append_fresh db.users _ (db.nextId + 1) db.now db.nextId hid' rfl]
  simp only []
  rw [findById_append_fresh db.users _ (db.nextId + 1) db.now db.nextId hid' rfl]
  refine ⟨⟨_, rfl, lookup_selectExcl_none _ _ _ (by decide),
    lookup_selectExcl_none _ _ _ (by decide)⟩,
    ⟨_, rfl, rfl, bcryptHash_ne 10 pw⟩⟩


/-- Witness for C7: registering "bob" with password "secret" and a
successfully uploading avatar file against the concrete state `dbW`. -/
theorem c7_register_hashes_password_and_hides_secrets_witness :
    (∃ doc,
      (registerUser envOkW dbW ⟨[], []⟩ ⟨some "Bob Lee", some "b@c.d",
          some "bob", some "secret",
          some ⟨some [⟨"tmp/new.png"⟩], none⟩⟩).result = .ok (201, doc) ∧
      doc.lookup "password" = none ∧
      doc.lookup "refreshToken" = none) ∧
    ∃ c, findById (registerUser envOkW dbW ⟨[], []⟩ ⟨some "Bob Lee",
          some "b@c.d", some "bob", some "secret",
          some ⟨some [⟨"tmp/new.png"⟩], none⟩⟩).db dbW.nextId = some c ∧
      c.password = bcryptHash 10 "secret" ∧
      c.password ≠ "secret" :=
  c7_register_hashes_password_and_hides_secrets envOkW dbW ⟨[], []⟩
    "Bob Lee" "b@c.d" "bob" "secret" "tmp/new.png" none ⟨"http://new", "newid"⟩
    (by decide) (by decide) (by decide) (by decide) (by decide) (by decide)
    (by decide) (by decide) (by decide) (by rfl)

/-- Lemma: `generateAccessAndRefreshTokens` only ever throws the 500
`ApiError`. -/
theorem generate_error_elim (db : DB) (uid : Nat) (e : ApiError)
    (h : generateAccessAndRefreshTokens db uid = .error e) :
    e = ⟨500, "Something went wrong while generating access and refresh tokens."⟩ := by
  unfold generateAccessAndRefreshTokens at h
  split at h
  · cases h; rfl
  · cases h

/-- The identifier-required error is produced by `loginValidate` only
when both identifiers are falsy. -/
theorem loginValidate_id_required_elim (req : LoginRequest)
    (h : loginValidate req =
      some (.api ⟨400, "username or email is required."⟩)) :
    jsTruthyS req.username = false ∧ jsTruthyS req.email = false := by
  unfold loginValidate at h
  by_cases hc : (!jsTruthyS req.username && !jsTruthyS req.email) = true
  · simp only [Bool.and_eq_true, Bool.not_eq_true'] at hc
    exact hc
  · rw [if_neg hc] at h
    split at h
    · cases h
    · simp at h
    · split at h
      · cases h
      · simp at h
      · split at h
        · simp at h
        · cases h

/-- C8. In `loginUser`, supplying either one of email or username
(together with a nonempty password, in the right format) passes the
whole validation prefix, and the identifier-presence ValidationError
("username or email is required.", 400) is raised exactly when both
identifiers are absent (falsy): it is raised whenever both are absent,
and it is never produced by any other branch of the controller. -/
theorem c8_login_either_identifier_sufficient :
    (∀ (db : DB) (req : LoginRequest),
        jsTruthyS req.username = false → jsTruthyS req.email = false →
        loginUser db req =
          .error (.api ⟨400, "username or email is required."⟩))
    ∧
    (∀ (db : DB) (req : LoginRequest),
        loginUser db req =
          .error (.api ⟨400, "username or email is required."⟩) →
        jsTruthyS req.username = false ∧ jsTruthyS req.email = false)
    ∧
    (∀ (em pw : String), isEmail em = true → jsTrim em ≠ "" → jsTrim pw ≠ "" →
        loginValidate ⟨some em, none, some pw⟩ = none)
    ∧
    (∀ (un pw : String), isLowercase un = true → jsTrim un ≠ "" →
        jsTrim pw ≠ "" →
        loginValidate ⟨none, some un, some pw⟩ = none) := by
  refine ⟨?_, ?_, ?_, ?_⟩
  · intro db req h1 h2
    unfold loginUser loginValidate
    rw [h1, h2]
    rfl
  · intro db req h
    unfold loginUser at h
    split at h
    · rename_i e heq
      cases h
      exact loginValidate_id_required_elim req heq
    · split at h
      · simp at h
      · split at h
        · simp at h
        · split at h
          · rename_i e heq2
            have he := generate_error_elim db _ _ heq2
            subst he
            simp at h
          · cases h
  · intro em pw hemail hem hpw
    have hemne : em ≠ "" := by
      intro he; rw [he] at hem; exact hem rfl
    have hem' : (jsTrim em == "") = false := by simp [hem]
    have hpw' : (jsTrim pw == "") = false := by simp [hpw]
    have htr : jsTruthyS (some em) = true := by simp [jsTruthyS, hemne]
    unfold loginValidate
    simp [jsTruthyS, someTrimEmpty, hem', hpw', loginFormatOk, hemail, hemne]
  · intro un pw hlower hun hpw
    have hunne : un ≠ "" := by
      intro he; rw [he] at hun; exact hun rfl
    have hun' : (jsTrim un == "") = false := by simp [hun]
    have hpw' : (jsTrim pw == "") = false := by simp [hpw]
    have htr : jsTruthyS (some un) = true := by simp [jsTruthyS, hunne]
    unfold loginValidate
    simp [jsTruthyS, someTrimEmpty, hun', hpw', loginFormatOk, hlower, hunne]

/-- Witness for C8: both identifiers absent is rejected with the
identifier-required error; that error at a concrete call implies both
were absent; and each single-identifier request passes validation. -/
theorem c8_login_either_identifier_sufficient_witness :
    loginUser dbW ⟨none, none, some "pw"⟩ =
      .error (.api ⟨400, "username or email is required."⟩) ∧
    (jsTruthyS (none : Option String) = false ∧
      jsTruthyS (none : Option String) = false) ∧
    loginValidate ⟨some "a@b.c", none, some "pw"⟩ = none ∧
    loginValidate ⟨none, some "ann", some "pw"⟩ = none :=
  ⟨c8_login_either_identifier_sufficient.1 dbW ⟨none, none, some "pw"⟩
      (by decide) (by decide),
   c8_login_either_identifier_sufficient.2.1 dbW ⟨none, none, some "pw"⟩
      (by rfl),
   c8_login_either_identifier_sufficient.2.2.1 "a@b.c" "pw"
      (by decide) (by decide) (by decide),
   c8_login_either_identifier_sufficient.2.2.2 "ann" "pw"
      (by decide) (by decide) (by decide)⟩

/-- The unlink log after an upload call: one entry longer exactly when
the path was truthy. -/
theorem upload_unlinked_length (env : CloudEnv) (eff : MediaEffects)
    (x : Option String) :
    (uploadOnCloudinary env eff x).1.unlinked.length =
      eff.unlinked.length + (if jsTruthyS x = true then 1 else 0) := by
  unfold uploadOnCloudinary
  by_cases hx : jsTruthyS x = true
  · rw [if_pos hx, if_pos hx]
    cases h : env.uploadResult (x.getD "") <;> simp [h]
  · rw [if_neg hx, if_neg hx]
    rfl

/-- C10. For registration requests whose body fields pass the earlier
checks: (1) when the multipart `files` object is present but has no
`avatar` field, the unguarded `req.files?.avatar[0]?.path` raises an
untyped runtime error (TypeError) instead of any `ApiError`, leaving
database and effect log untouched; (2) when `req.files` itself is
absent, the guard's 400 "avatar is required." ValidationError is
raised; and (3) whenever that guard ValidationError is the outcome with
no file unlinked (i.e. before any upload ran), the avatar-path
expression evaluated without a TypeError to a falsy value — so the
guard error is reachable only with `req.files` absent or a falsy avatar
path. -/
theorem c10_register_unguarded_avatar_index :
    (∀ (env : CloudEnv) (db : DB) (eff : MediaEffects)
        (fn em un pw : String) (cover : Option (List FilePart)),
        jsTrim fn ≠ "" → jsTrim em ≠ "" → jsTrim un ≠ "" → jsTrim pw ≠ "" →
        isEmail em = true → isLowercase un = true →
        db.users.find? (fun u => u.username == un || u.email == em) = none →
        registerUser env db eff
          ⟨some fn, some em, some un, some pw, some ⟨none, cover⟩⟩ =
          ⟨db, eff, .error .jsError⟩)
    ∧
    (∀ (env : CloudEnv) (db : DB) (eff : MediaEffects) (fn em un pw : String),
        jsTrim fn ≠ "" → jsTrim em ≠ "" → jsTrim un ≠ "" → jsTrim pw ≠ "" →
        isEmail em = true → isLowercase un = true →
        db.users.find? (fun u => u.username == un || u.email == em) = none →
        registerUser env db eff ⟨some fn, some em, some un, some pw, none⟩ =
          ⟨db, eff, .error (.api ⟨400, "avatar is required."⟩)⟩)
    ∧
    (∀ (env : CloudEnv) (db : DB) (eff : MediaEffects) (req : RegisterRequest)
        (db' : DB) (eff' : MediaEffects),
        registerUser env db eff req =
          ⟨db', eff', .error (.api ⟨400, "avatar is required."⟩)⟩ →
        eff'.unlinked = eff.unlinked →
        ∃ v, avatarLocalPathOf req.files = .ok v ∧ jsTruthyS v = false) := by
  refine ⟨?_, ?_, ?_⟩
  · intro env db eff fn em un pw cover hfn hem hun hpw hemail hlower hnew
    have hfn' : (jsTrim fn == "") = false := by simp [hfn]
    have hem' : (jsTrim em == "") = false := by simp [hem]
    have hun' : (jsTrim un == "") = false := by simp [hun]
    have hpw' : (jsTrim pw == "") = false := by simp [hpw]
    have havp : avatarLocalPathOf (some ⟨none, cover⟩) = .error () := rfl
    unfold registerUser
    simp only [List.any_cons, List.any_nil, hfn', hem', hun', hpw',
      Bool.or_self, Bool.or_false, Bool.false_eq_true, if_false,
      hemail, hlower, Bool.not_true, hnew, Option.isSome_none, havp]
  · intro env db eff fn em un pw hfn hem hun hpw hemail hlower hnew
    have hfn' : (jsTrim fn == "") = false := by simp [hfn]
    have hem' : (jsTrim em == "") = false := by simp [hem]
    have hun' : (jsTrim un == "") = false := by simp [hun]
    have hpw' : (jsTrim pw == "") = false := by simp [hpw]
    have havp : avatarLocalPathOf none = .ok none := rfl
    unfold registerUser
    simp only [List.any_cons, List.any_nil, hfn', hem', hun', hpw',
      Bool.or_self, Bool.or_false, Bool.false_eq_true, if_false,
      hemail, hlower, Bool.not_true, hnew, Option.isSome_none, havp]
    rfl
  · intro env db eff req db' eff' h heff
    unfold registerUser at h
    split at h
    · simp at h
    · split at h
      · simp at h
      · split at h
        · simp at h
        · split at h
          · simp at h
          · split at h
            · simp at h
            · split at h
              · simp at h
              · split at h
                · simp at h
                · rename_i hok v havp
                  split at h
                  · rename_i hguard
                    simp only [Bool.not_eq_true', Bool.not_eq_false] at hguard
                    exact ⟨v, havp, by simpa using hguard⟩
                  · rename_i hguard
                    have htr : jsTruthyS v = true := by
                      simpa using hguard
                    cases hav : (uploadOnCloudinary env eff v).2 with
                    | none =>
                      simp only [hav, RegisterOutcome.mk.injEq] at h
                      obtain ⟨hdb, heq, -⟩ := h
                      have hlen := congrArg List.length heff
                      rw [← heq] at hlen
                      have l1 := upload_unlinked_length env eff v
                      have l2 := upload_unlinked_length env
                        (uploadOnCloudinary env eff v).1
                        (coverImagePathOf req.files)
                      rw [htr, if_pos rfl] at l1
                      rw [hlen] at l2
                      split_ifs at l2 <;> omega
                    | some avatar =>
                      simp only [hav] at h
                      split at h
                      · split at h
                        · exact absurd (congrArg RegisterOutcome.result h) (by simp)
                        · exact absurd (congrArg RegisterOutcome.result h) (by simp)
                      · exact absurd (congrArg RegisterOutcome.result h) (by simp)

/-- Witness for C10: with valid body fields, a files object lacking the
avatar field makes registration raise the untyped runtime error; a
missing files object yields the 400 "avatar is required." guard; and at
that concrete guard outcome the avatar-path expression evaluated to a
falsy value without a TypeError. -/
theorem c10_register_unguarded_avatar_index_witness :
    registerUser envW dbW ⟨[], []⟩ ⟨some "Bob Lee", some "b@c.d", some "bob",
        some "secret", some ⟨none, none⟩⟩ =
      ⟨dbW, ⟨[], []⟩, .error .jsError⟩ ∧
    registerUser envW dbW ⟨[], []⟩ ⟨some "Bob Lee", some "b@c.d", some "bob",
        some "secret", none⟩ =
      ⟨dbW, ⟨[], []⟩, .error (.api ⟨400, "avatar is required."⟩)⟩ ∧
    ∃ v, avatarLocalPathOf (none : Option Files) = .ok v ∧
      jsTruthyS v = false :=
  ⟨c10_register_unguarded_avatar_index.1 envW dbW ⟨[], []⟩
      "Bob Lee" "b@c.d" "bob" "secret" none
      (by decide) (by decide) (by decide) (by decide) (by decide) (by decide)
      (by decide),
   c10_register_unguarded_avatar_index.2.1 envW dbW ⟨[], []⟩
      "Bob Lee" "b@c.d" "bob" "secret"
      (by decide) (by decide) (by decide) (by decide) (by decide) (by decide)
      (by decide),
   c10_register_unguarded_avatar_index.2.2 envW dbW ⟨[], []⟩
      ⟨some "Bob Lee", some "b@c.d", some "bob", some "secret", none⟩
      dbW ⟨[], []⟩
      (c10_register_unguarded_avatar_index.2.1 envW dbW ⟨[], []⟩
        "Bob Lee" "b@c.d" "bob" "secret"
        (by decide) (by decide) (by decide) (by decide) (by decide) (by decide)
        (by decide))
      rfl⟩
